import Mathlib

/-!
Shallow embedding of the guidance-to-command policy of the face-guidance
repository: `face_guidance_mqtt.py` (class `FaceGuidanceMQTTApp`),
`face-detect-streaming.py` (class `FaceGuidanceApp`) and the keyboard-only
script `MQTT.py`.

Time stamps (`time.time()`) are modelled as rationals; the outcome of
`mqtt_client.publish` (which may raise) is an explicit boolean parameter
`pubOk`; the outcome of the cascade detector (which may raise) is an explicit
`Except` parameter.  Each embedded operation returns, besides the new
dispatch state, the list of publish invocations it performed, so that
side effects are observable in the model.
-/

namespace FaceGuidance

/-- `COMMAND_RATE_LIMIT = 0.5` seconds, minimum interval between commands. -/
def COMMAND_RATE_LIMIT : ℚ := 1 / 2

/-- `TOO_CLOSE_THRESHOLD = 200` pixels. -/
def TOO_CLOSE_THRESHOLD : ℤ := 200

/-- `TOO_FAR_THRESHOLD = 100` pixels. -/
def TOO_FAR_THRESHOLD : ℤ := 100

/-- `FRAME_CENTER_THRESHOLD = 50` pixels. -/
def FRAME_CENTER_THRESHOLD : ℤ := 50

/-- The mutable rate-limiting state of `FaceGuidanceMQTTApp`:
`self.last_command_time` (initially `0`) and `self.last_command`
(initially `None`). -/
structure DispatchState where
  last_command_time : ℚ
  last_command : Option String
deriving DecidableEq, Repr

/-- `FaceGuidanceMQTTApp.send_mqtt_command` (lines 95-115).  Input: current
state, the value of `time.time()`, the candidate command, and whether the
`publish` call succeeds (`pubOk = false` models `publish` raising).
Output: (new state, returned boolean, publish invocations performed). -/
def send_mqtt_command (st : DispatchState) (now : ℚ) (command : String)
    (pubOk : Bool) : DispatchState × Bool × List String :=
  if now - st.last_command_time < COMMAND_RATE_LIMIT then (st, false, [])
  else if st.last_command = some command then (st, false, [])
  else if pubOk then
    ({ last_command_time := now, last_command := some command }, true, [command])
  else (st, false, [command])

/-- The key→command table of `FaceGuidanceMQTTApp.handle_manual_control`
(lines 211-224); key codes are the `ord` values: `w`=119, `s`=115, `a`=97,
`d`=100, `q`=113, `e`=101, space=32. -/
def keyToCommand (key : ℕ) : Option String :=
  if key = 119 then some "Forward"
  else if key = 115 then some "Backward"
  else if key = 97 then some "Left"
  else if key = 100 then some "Right"
  else if key = 113 then some "RotateLeft"
  else if key = 101 then some "RotateRight"
  else if key = 32 then some "Stop"
  else none

/-- `FaceGuidanceMQTTApp.handle_manual_control` (lines 207-236): maps the key,
and if a command results, publishes it whenever the minimum interval has
elapsed (no identical-command suppression), updating the state on success;
a raising `publish` (`pubOk = false`) leaves the state unchanged. -/
def handle_manual_control (st : DispatchState) (now : ℚ) (key : ℕ)
    (pubOk : Bool) : DispatchState × List String :=
  match keyToCommand key with
  | none => (st, [])
  | some cmd =>
    if COMMAND_RATE_LIMIT ≤ now - st.last_command_time then
      if pubOk then
        ({ last_command_time := now, last_command := some cmd }, [cmd])
      else (st, [cmd])
    else (st, [])

/-- The quit test of `FaceGuidanceMQTTApp.run` (line 281):
`key == ord('q') or key == 27`. -/
def isQuitKey (key : ℕ) : Bool :=
  key == 113 || key == 27

/-- `FaceGuidanceMQTTApp.analyze_face_distance` (lines 129-138).  Output:
(new state, publish invocations, returned status string). -/
def analyze_face_distance (st : DispatchState) (now : ℚ) (face_width : ℤ)
    (pubOk : Bool) : DispatchState × List String × String :=
  if face_width > TOO_CLOSE_THRESHOLD then
    let r := send_mqtt_command st now "Backward" pubOk
    (r.1, r.2.2, "TOO_CLOSE")
  else if face_width < TOO_FAR_THRESHOLD then
    let r := send_mqtt_command st now "Forward" pubOk
    (r.1, r.2.2, "TOO_FAR")
  else (st, [], "OPTIMAL")

/-- `FaceGuidanceMQTTApp.analyze_face_position` (lines 140-151); Python `//`
is floor division, i.e. `Int.fdiv`. -/
def analyze_face_position (st : DispatchState) (now : ℚ)
    (face_center_x frame_width : ℤ) (pubOk : Bool) :
    DispatchState × List String × String :=
  let frame_center_x := Int.fdiv frame_width 2
  if face_center_x < frame_center_x - FRAME_CENTER_THRESHOLD then
    let r := send_mqtt_command st now "Right" pubOk
    (r.1, r.2.2, "TOO_LEFT")
  else if face_center_x > frame_center_x + FRAME_CENTER_THRESHOLD then
    let r := send_mqtt_command st now "Left" pubOk
    (r.1, r.2.2, "TOO_RIGHT")
  else (st, [], "CENTERED")

/-- A detected bounding box `(x, y, w, h)` as returned by the detector. -/
structure BoundingBox where
  x : ℤ
  y : ℤ
  w : ℤ
  h : ℤ
deriving DecidableEq, Repr

/-- `FaceGuidanceApp.detect_faces` of `face-detect-streaming.py` (lines
36-53): the cascade call is wrapped in try/except, and an exception yields
the empty face list.  `raw` is the outcome of the underlying detector call
(`Except.error e` models a raised exception with message `e`). -/
def streaming_detect_faces (raw : Except String (List BoundingBox)) :
    List BoundingBox :=
  match raw with
  | .ok faces => faces
  | .error _ => []

/-- `FaceGuidanceMQTTApp.detect_faces` of `face_guidance_mqtt.py` (lines
117-127): no exception handler, so the outcome of the underlying detector
call propagates as is. -/
def mqtt_detect_faces (raw : Except String (List BoundingBox)) :
    Except String (List BoundingBox) :=
  raw

/-- The dispatch-state effect of one face inside
`FaceGuidanceMQTTApp.draw_guidance` (lines 166-186): distance analysis on the
box width, then position analysis on `x + w // 2`. -/
def guideFace (now : ℚ) (frame_width : ℤ) (pubOk : Bool)
    (st : DispatchState) (b : BoundingBox) : DispatchState :=
  (analyze_face_position (analyze_face_distance st now b.w pubOk).1 now
    (b.x + Int.fdiv b.w 2) frame_width pubOk).1

/-- The dispatch-state effect of `FaceGuidanceMQTTApp.draw_guidance`
(lines 153-205): fold `guideFace` over all detected faces. -/
def draw_guidance (st : DispatchState) (now : ℚ) (faces : List BoundingBox)
    (frame_width : ℤ) (pubOk : Bool) : DispatchState :=
  faces.foldl (guideFace now frame_width pubOk) st

/-- One iteration of the `while` loop of `FaceGuidanceMQTTApp.run` (lines
241-282) after a successful frame read: detection, guidance when faces were
found, manual-control handling, quit check.  `Except.error e` means an
exception escaped the loop body (the loop does not reach the next tick);
`Except.ok (st, cont)` gives the new dispatch state and whether the loop
continues. -/
def run_tick (st : DispatchState) (now : ℚ)
    (raw : Except String (List BoundingBox)) (frame_width : ℤ) (key : ℕ)
    (pubOk : Bool) : Except String (DispatchState × Bool) :=
  match mqtt_detect_faces raw with
  | .error e => .error e
  | .ok faces =>
    let st1 := if faces.length > 0 then
      draw_guidance st now faces frame_width pubOk else st
    let st2 := (handle_manual_control st1 now key pubOk).1
    .ok (st2, !isQuitKey key)

/-- One dispatch attempt against the shared `DispatchState`: either an
automated call to `send_mqtt_command` or a manual-control key event, each
carrying its own `time.time()` value and publish outcome. -/
inductive Attempt where
  | auto (now : ℚ) (cmd : String) (pubOk : Bool)
  | manual (now : ℚ) (key : ℕ) (pubOk : Bool)
deriving Repr

/-- The `time.time()` value of an attempt. -/
def Attempt.time : Attempt → ℚ
  | .auto now _ _ => now
  | .manual now _ _ => now

/-- The state after one dispatch attempt. -/
def stepState (st : DispatchState) : Attempt → DispatchState
  | .auto now cmd p => (send_mqtt_command st now cmd p).1
  | .manual now key p => (handle_manual_control st now key p).1

/-- The state after a sequence of dispatch attempts. -/
def runAttempts (st : DispatchState) : List Attempt → DispatchState
  | [] => st
  | a :: as => runAttempts (stepState st a) as

/-- The timestamps of the successful dispatches in a sequence of attempts
(an attempt succeeds exactly when it changes `last_command_time`). -/
def successTimes (st : DispatchState) : List Attempt → List ℚ
  | [] => []
  | a :: as =>
    let st' := stepState st a
    (if st'.last_command_time = st.last_command_time then [] else [a.time])
      ++ successTimes st' as

/-- The key→command table of `main` in `MQTT.py` (lines 71-80), applied to
the lower-cased key: `w`=119, `s`=115, `a`=97, `d`=100, space=32. -/
def script_key_to_cmd (key : Char) : Option String :=
  if key.toLower.toNat = 119 then some "Forward"
  else if key.toLower.toNat = 115 then some "Backward"
  else if key.toLower.toNat = 97 then some "Left"
  else if key.toLower.toNat = 100 then some "Right"
  else if key.toLower.toNat = 32 then some "Stop"
  else none

/-- The `while` loop of `main` in `MQTT.py` (lines 67-87) run over a finite
key sequence: each mapped command is published unconditionally; a lower-cased
`q` (code 113) breaks the loop.  Returns the list of published commands. -/
def script_run : List Char → List String
  | [] => []
  | k :: rest =>
    if k.toLower.toNat = 113 then []
    else match script_key_to_cmd k with
      | some c => c :: script_run rest
      | none => script_run rest

/-! ## Theorems -/

/-- C1: for every candidate command and timestamp `now`, `send_mqtt_command`
returns `false` and leaves the dispatch state unchanged (and publishes
nothing) whenever `now - last_command_time < COMMAND_RATE_LIMIT`, and also
whenever the candidate equals `last_command`, even if the rate-limit window
has elapsed. -/
theorem send_mqtt_command_rejects (st : DispatchState) (now : ℚ) (cmd : String)
    (pubOk : Bool)
    (h : now - st.last_command_time < COMMAND_RATE_LIMIT ∨
      st.last_command = some cmd) :
    send_mqtt_command st now cmd pubOk = (st, false, []) := by
  unfold send_mqtt_command
  rcases h with h | h
  · rw [if_pos h]
  · split_ifs <;> simp_all

/-- Witness for C1: with `last_command = "Forward"` and the window long
elapsed (`now = 10`, `last_command_time = 0`), re-sending `"Forward"` is
rejected with no state change. -/
theorem send_mqtt_command_rejects_witness :
    ((10 : ℚ) - (⟨0, some "Forward"⟩ : DispatchState).last_command_time <
        COMMAND_RATE_LIMIT ∨
      (⟨0, some "Forward"⟩ : DispatchState).last_command = some "Forward") ∧
    send_mqtt_command ⟨0, some "Forward"⟩ 10 "Forward" true =
      (⟨0, some "Forward"⟩, false, []) :=
  ⟨Or.inr rfl, send_mqtt_command_rejects _ _ _ _ (Or.inr rfl)⟩

/-- C4: for every face width `w`, the distance status returned by
`analyze_face_distance` is `TOO_CLOSE` iff `w > 200`, `TOO_FAR` iff
`w < 100`, and `OPTIMAL` iff `100 ≤ w ≤ 200`, for every dispatch state,
timestamp and publish outcome. -/
theorem analyze_face_distance_classification (st : DispatchState) (now : ℚ)
    (pubOk : Bool) (w : ℤ) :
    ((analyze_face_distance st now w pubOk).2.2 = "TOO_CLOSE" ↔ 200 < w) ∧
    ((analyze_face_distance st now w pubOk).2.2 = "TOO_FAR" ↔ w < 100) ∧
    ((analyze_face_distance st now w pubOk).2.2 = "OPTIMAL" ↔
      (100 ≤ w ∧ w ≤ 200)) := by
  unfold analyze_face_distance TOO_CLOSE_THRESHOLD TOO_FAR_THRESHOLD
  split_ifs with h1 h2
  all_goals refine ⟨?_, ?_, ?_⟩
  all_goals simp_all
  all_goals omega

/-- C5: for every `face_center_x` and positive `frame_width`, the position
status returned by `analyze_face_position` is `TOO_LEFT` iff
`face_center_x < frame_width // 2 - 50`, `TOO_RIGHT` iff
`face_center_x > frame_width // 2 + 50`, and `CENTERED` otherwise, with
`//` the floor (Python integer) division. -/
theorem analyze_face_position_classification (st : DispatchState) (now : ℚ)
    (pubOk : Bool) (face_center_x frame_width : ℤ)
    (hfw : 0 < frame_width) :
    ((analyze_face_position st now face_center_x frame_width pubOk).2.2 =
        "TOO_LEFT" ↔ face_center_x < Int.fdiv frame_width 2 - 50) ∧
    ((analyze_face_position st now face_center_x frame_width pubOk).2.2 =
        "TOO_RIGHT" ↔ Int.fdiv frame_width 2 + 50 < face_center_x) ∧
    ((analyze_face_position st now face_center_x frame_width pubOk).2.2 =
        "CENTERED" ↔ (Int.fdiv frame_width 2 - 50 ≤ face_center_x ∧
          face_center_x ≤ Int.fdiv frame_width 2 + 50)) := by
  unfold analyze_face_position FRAME_CENTER_THRESHOLD
  dsimp only
  split_ifs with h1 h2
  all_goals refine ⟨?_, ?_, ?_⟩
  all_goals simp_all
  all_goals omega

/-- Witness for C5: at `face_center_x = 320`, `frame_width = 640` the status
is `CENTERED` and the three characterizations hold. -/
theorem analyze_face_position_classification_witness :
    (0 : ℤ) < 640 ∧
    (((analyze_face_position ⟨0, none⟩ 0 320 640 true).2.2 = "TOO_LEFT" ↔
        (320 : ℤ) < Int.fdiv 640 2 - 50) ∧
      ((analyze_face_position ⟨0, none⟩ 0 320 640 true).2.2 = "TOO_RIGHT" ↔
        Int.fdiv 640 2 + 50 < (320 : ℤ)) ∧
      ((analyze_face_position ⟨0, none⟩ 0 320 640 true).2.2 = "CENTERED" ↔
        (Int.fdiv 640 2 - 50 ≤ (320 : ℤ) ∧
          (320 : ℤ) ≤ Int.fdiv 640 2 + 50))) :=
  ⟨by decide, analyze_face_position_classification ⟨0, none⟩ 0 true 320 640
    (by decide)⟩

/-- C6: when an automated dispatch attempt passes both the rate-limit and
de-duplication checks, `send_mqtt_command` invokes `publish`; on publish
success it sets `last_command := cmd`, `last_command_time := now` and returns
`true`; if `publish` raises it returns `false` with both fields unchanged. -/
theorem send_mqtt_command_dispatch (st : DispatchState) (now : ℚ)
    (cmd : String) (pubOk : Bool)
    (hrate : COMMAND_RATE_LIMIT ≤ now - st.last_command_time)
    (hdup : st.last_command ≠ some cmd) :
    (send_mqtt_command st now cmd pubOk).2.2 = [cmd] ∧
    (pubOk = true → send_mqtt_command st now cmd pubOk =
      ({ last_command_time := now, last_command := some cmd }, true, [cmd])) ∧
    (pubOk = false → send_mqtt_command st now cmd pubOk =
      (st, false, [cmd])) := by
  unfold send_mqtt_command
  rw [if_neg (not_lt.mpr hrate), if_neg hdup]
  cases pubOk <;> simp

/-- Witness for C6: fresh state, `now = 1`, failing publish: the command is
attempted on the channel but the state is unchanged and `false` is
returned (so the candidate may be retried later). -/
theorem send_mqtt_command_dispatch_witness :
    COMMAND_RATE_LIMIT ≤ (1 : ℚ) -
      (⟨0, none⟩ : DispatchState).last_command_time ∧
    (⟨0, none⟩ : DispatchState).last_command ≠ some "Forward" ∧
    ((send_mqtt_command ⟨0, none⟩ 1 "Forward" false).2.2 = ["Forward"] ∧
      (false = true → send_mqtt_command ⟨0, none⟩ 1 "Forward" false =
        ({ last_command_time := 1, last_command := some "Forward" }, true,
          ["Forward"])) ∧
      (false = false → send_mqtt_command ⟨0, none⟩ 1 "Forward" false =
        (⟨0, none⟩, false, ["Forward"]))) :=
  ⟨by norm_num [COMMAND_RATE_LIMIT], by simp,
    send_mqtt_command_dispatch ⟨0, none⟩ 1 "Forward" false
      (by norm_num [COMMAND_RATE_LIMIT]) (by simp)⟩

/-- C7: for every key mapping to a command, `handle_manual_control` publishes
the command when `now - last_command_time ≥ COMMAND_RATE_LIMIT` — for every
state, in particular also when the command equals `last_command`
(de-duplication bypassed) — and on publish success updates the state to
`{ last_command_time := now, last_command := some cmd }`, exactly the update
the automated path performs on success; when the minimum interval has not
elapsed nothing is published and the state is unchanged. -/
theorem handle_manual_control_spec (st : DispatchState) (now : ℚ) (key : ℕ)
    (pubOk : Bool) (cmd : String) (hk : keyToCommand key = some cmd) :
    (COMMAND_RATE_LIMIT ≤ now - st.last_command_time →
      (pubOk = true → handle_manual_control st now key pubOk =
        ({ last_command_time := now, last_command := some cmd }, [cmd])) ∧
      (pubOk = false → handle_manual_control st now key pubOk =
        (st, [cmd]))) ∧
    (now - st.last_command_time < COMMAND_RATE_LIMIT →
      handle_manual_control st now key pubOk = (st, [])) := by
  unfold handle_manual_control
  rw [hk]
  dsimp only
  constructor
  · intro h
    rw [if_pos h]
    cases pubOk <;> simp
  · intro h
    rw [if_neg (not_le.mpr h)]

/-- Witness for C7: key `w` (code 119) with `last_command` already
`"Forward"` and the window elapsed: the identical command is re-published
and the state updated — the de-duplication bypass in action. -/
theorem handle_manual_control_spec_witness :
    keyToCommand 119 = some "Forward" ∧
    handle_manual_control ⟨0, some "Forward"⟩ 1 119 true =
      ({ last_command_time := 1, last_command := some "Forward" },
        ["Forward"]) :=
  ⟨rfl,
    ((handle_manual_control_spec ⟨0, some "Forward"⟩ 1 119 true "Forward"
      rfl).1 (by norm_num [COMMAND_RATE_LIMIT])).1 rfl⟩

/-- C2 counterexample: the claim that the two analysis functions never
publish and never mutate the dispatch state is false: at
`face_width = 250` from the fresh state, `analyze_face_distance` publishes
`"Backward"` and rewrites both state fields (it calls
`send_mqtt_command` internally). -/
theorem analyze_face_distance_impure :
    ¬ (∀ (st : DispatchState) (now : ℚ) (w : ℤ) (pubOk : Bool),
        (analyze_face_distance st now w pubOk).1 = st ∧
        (analyze_face_distance st now w pubOk).2.1 = []) := by
  intro h
  have heval : analyze_face_distance ⟨0, none⟩ 1 250 true =
      ({ last_command_time := 1, last_command := some "Backward" },
        ["Backward"], "TOO_CLOSE") := by
    norm_num [analyze_face_distance, send_mqtt_command, COMMAND_RATE_LIMIT,
      TOO_CLOSE_THRESHOLD]
    decide
  have h2 := (h ⟨0, none⟩ 1 250 true).2
  rw [heval] at h2
  exact List.cons_ne_nil _ _ h2

/-- C2 amended: the classification value (the returned status string) is a
pure function of the numeric input — identical for every dispatch state,
timestamp and publish outcome — but the functions are not side-effect free:
on a too-close width the whole result of `analyze_face_distance` is exactly
a `send_mqtt_command "Backward"` call (state change and publish attempt
included), and the other non-optimal branches delegate likewise. -/
theorem analyze_status_pure_but_effectful (st₁ st₂ : DispatchState)
    (now₁ now₂ : ℚ) (p₁ p₂ : Bool) (w wc cx fw : ℤ) (hwc : 200 < wc) :
    (analyze_face_distance st₁ now₁ w p₁).2.2 =
      (analyze_face_distance st₂ now₂ w p₂).2.2 ∧
    (analyze_face_position st₁ now₁ cx fw p₁).2.2 =
      (analyze_face_position st₂ now₂ cx fw p₂).2.2 ∧
    analyze_face_distance st₁ now₁ wc p₁ =
      ((send_mqtt_command st₁ now₁ "Backward" p₁).1,
        (send_mqtt_command st₁ now₁ "Backward" p₁).2.2, "TOO_CLOSE") := by
  refine ⟨?_, ?_, ?_⟩
  · unfold analyze_face_distance
    split_ifs <;> rfl
  · unfold analyze_face_position
    dsimp only
    split_ifs <;> rfl
  · unfold analyze_face_distance TOO_CLOSE_THRESHOLD
    rw [if_pos hwc]

/-- Witness for the amended C2: statuses agree across different states,
times and publish outcomes, and at width 250 the distance analysis is a
`send_mqtt_command "Backward"` call. -/
theorem analyze_status_pure_but_effectful_witness :
    (200 : ℤ) < 250 ∧
    ((analyze_face_distance ⟨0, none⟩ 1 150 true).2.2 =
        (analyze_face_distance ⟨3, some "Left"⟩ 2 150 false).2.2 ∧
      (analyze_face_position ⟨0, none⟩ 1 320 640 true).2.2 =
        (analyze_face_position ⟨3, some "Left"⟩ 2 320 640 false).2.2 ∧
      analyze_face_distance ⟨0, none⟩ 1 250 true =
        ((send_mqtt_command ⟨0, none⟩ 1 "Backward" true).1,
          (send_mqtt_command ⟨0, none⟩ 1 "Backward" true).2.2,
          "TOO_CLOSE")) :=
  ⟨by decide, analyze_status_pure_but_effectful ⟨0, none⟩ ⟨3, some "Left"⟩
    1 2 true false 150 250 320 640 (by decide)⟩

/-- After one dispatch attempt, `last_command_time` is either unchanged
(failed attempt) or equal to the attempt's timestamp, which then exceeds the
previous `last_command_time` by at least `COMMAND_RATE_LIMIT` — both
`send_mqtt_command` and `handle_manual_control` gate the update on the
elapsed interval. -/
lemma stepState_lct (st : DispatchState) (a : Attempt) :
    (stepState st a).last_command_time = st.last_command_time ∨
    ((stepState st a).last_command_time = a.time ∧
      st.last_command_time + COMMAND_RATE_LIMIT ≤ a.time) := by
  cases a with
  | auto now cmd p =>
    simp only [stepState, Attempt.time]
    unfold send_mqtt_command
    split_ifs with h1 h2 h3
    · exact Or.inl rfl
    · exact Or.inl rfl
    · exact Or.inr ⟨rfl, by linarith [not_lt.mp h1]⟩
    · exact Or.inl rfl
  | manual now key p =>
    simp only [stepState, Attempt.time]
    unfold handle_manual_control
    cases hk : keyToCommand key with
    | none => exact Or.inl rfl
    | some cmd =>
      dsimp only
      split_ifs with h1 h2
      · exact Or.inr ⟨rfl, by linarith⟩
      · exact Or.inl rfl
      · exact Or.inl rfl

/-- Invariant of dispatch-attempt traces: `last_command_time` never
decreases, every successful dispatch is at least `COMMAND_RATE_LIMIT` after
the initial `last_command_time`, and the successful-dispatch timestamps are
pairwise at least `COMMAND_RATE_LIMIT` apart. -/
lemma runAttempts_invariant : ∀ (as : List Attempt) (st : DispatchState),
    st.last_command_time ≤ (runAttempts st as).last_command_time ∧
    (∀ t ∈ successTimes st as,
      st.last_command_time + COMMAND_RATE_LIMIT ≤ t) ∧
    List.Pairwise (fun t₁ t₂ => t₁ + COMMAND_RATE_LIMIT ≤ t₂)
      (successTimes st as) := by
  intro as
  induction as with
  | nil =>
    intro st
    exact ⟨le_refl _, by simp [successTimes], by simp [successTimes]⟩
  | cons a as ih =>
    intro st
    have hpos : (0 : ℚ) < COMMAND_RATE_LIMIT := by
      norm_num [COMMAND_RATE_LIMIT]
    obtain ⟨ih1, ih2, ih3⟩ := ih (stepState st a)
    have hrun : runAttempts st (a :: as) = runAttempts (stepState st a) as :=
      rfl
    have hsucc : successTimes st (a :: as) =
        (if (stepState st a).last_command_time = st.last_command_time
          then [] else [a.time]) ++ successTimes (stepState st a) as := rfl
    by_cases hc :
      (stepState st a).last_command_time = st.last_command_time
    · rw [hrun, hsucc, if_pos hc]
      simp only [List.nil_append]
      exact ⟨hc ▸ ih1, fun t ht => hc ▸ ih2 t ht, ih3⟩
    · rcases stepState_lct st a with hstep | ⟨hEq, hGap⟩
      · exact absurd hstep hc
      · rw [hrun, hsucc, if_neg hc]
        simp only [List.singleton_append]
        refine ⟨?_, ?_, ?_⟩
        · have := hEq ▸ ih1
          linarith
        · intro t ht
          rcases List.mem_cons.mp ht with h | h
          · rw [h]; exact hGap
          · have := ih2 t h
            rw [hEq] at this
            linarith
        · rw [List.pairwise_cons]
          refine ⟨?_, ih3⟩
          intro t ht
          have := ih2 t ht
          rw [hEq] at this
          linarith

/-- C3: across every sequence of automated (`send_mqtt_command`) and manual
(`handle_manual_control`) dispatch attempts, `last_command_time` is
monotonically non-decreasing (quantified over every starting state, hence
along every prefix of the trace), and the timestamps of successful
dispatches — on either path — are pairwise at least `COMMAND_RATE_LIMIT`
(0.5 s) apart.  No assumption on the attempt timestamps is needed: both
paths gate the update on the elapsed interval. -/
theorem dispatch_rate_limit_invariant (st : DispatchState)
    (as : List Attempt) :
    st.last_command_time ≤ (runAttempts st as).last_command_time ∧
    List.Pairwise (fun t₁ t₂ => t₁ + COMMAND_RATE_LIMIT ≤ t₂)
      (successTimes st as) :=
  ⟨(runAttempts_invariant as st).1, (runAttempts_invariant as st).2.2⟩

/-- C8 counterexample: the quit trigger is not a key code distinct from the
seven command keys: code 113 (`q`) satisfies the quit test of `run` and is
simultaneously the `RotateLeft` command key of `handle_manual_control`. -/
theorem quit_key_not_distinct :
    ¬ (∀ k : ℕ, isQuitKey k = true → keyToCommand k = none) := by
  intro h
  have h2 := h 113 (by decide)
  simp [keyToCommand] at h2

/-- C8 amended: the seven keys `w`/`s`/`a`/`d`/`q`/`e`/space (codes
119/115/97/100/113/101/32) map to their commands, every other key code maps
to no command and is a no-op for the command path, and quit is triggered by
exactly ESC (27) or `q` (113): ESC is distinct from the command keys, but
`q` coincides with the `RotateLeft` command key (pressing `q` issues
`RotateLeft` and then quits). -/
theorem key_table_spec (k : ℕ) (st : DispatchState) (now : ℚ) (p : Bool) :
    ([119, 115, 97, 100, 113, 101, 32].map keyToCommand =
      [some "Forward", some "Backward", some "Left", some "Right",
        some "RotateLeft", some "RotateRight", some "Stop"]) ∧
    (k ∉ [119, 115, 97, 100, 113, 101, 32] → keyToCommand k = none) ∧
    (keyToCommand k = none →
      handle_manual_control st now k p = (st, [])) ∧
    (isQuitKey k = true ↔ (k = 113 ∨ k = 27)) ∧
    keyToCommand 27 = none := by
  refine ⟨by decide, ?_, ?_, ?_, by decide⟩
  · intro h
    unfold keyToCommand
    split_ifs with h1 h2 h3 h4 h5 h6 h7 <;> simp_all
  · intro h
    unfold handle_manual_control
    rw [h]
  · unfold isQuitKey
    simp [Bool.or_eq_true, beq_iff_eq]

/-- Witness for the amended C8: key code 200 is outside the table and is a
no-op for the command path. -/
theorem key_table_spec_witness :
    (200 : ℕ) ∉ [119, 115, 97, 100, 113, 101, 32] ∧
    keyToCommand 200 = none ∧
    handle_manual_control ⟨0, none⟩ 0 200 true = (⟨0, none⟩, []) :=
  ⟨by decide, rfl, (key_table_spec 200 ⟨0, none⟩ 0 true).2.2.1 rfl⟩

/-- C9 counterexample: in `face_guidance_mqtt.py` a detector exception is
not treated as "zero faces found": with a raising detector the loop-body
outcome is the propagated exception (`Except.error`), while a genuine
zero-face tick returns `Except.ok` with the loop continuing — the two
outcomes differ. -/
theorem run_tick_detector_error :
    run_tick ⟨0, none⟩ 1 (Except.error "detector failure") 640 255 true =
      Except.error "detector failure" ∧
    run_tick ⟨0, none⟩ 1 (Except.ok []) 640 255 true =
      Except.ok (⟨0, none⟩, true) ∧
    (Except.error "detector failure" :
      Except String (DispatchState × Bool)) ≠ Except.ok (⟨0, none⟩, true) :=
  ⟨rfl, rfl, by simp⟩

/-- C9 amended: only `face-detect-streaming.py` treats a detector exception
as zero faces found (its `detect_faces` catches the exception and returns
the empty list, so that tick dispatches nothing and the loop continues); in
`face_guidance_mqtt.py`, `detect_faces` has no handler, so on a detector
exception the loop body propagates the error — no command is dispatched and
the state is untouched, but the control loop terminates instead of
continuing to the next tick. -/
theorem detector_failure_handling (raw : Except String (List BoundingBox))
    (e : String) (h : raw = Except.error e) (st : DispatchState) (now : ℚ)
    (fw : ℤ) (key : ℕ) (p : Bool) :
    streaming_detect_faces raw = [] ∧
    run_tick st now raw fw key p = Except.error e := by
  subst h
  exact ⟨rfl, rfl⟩

/-- Witness for the amended C9 at a concrete raising detector. -/
theorem detector_failure_handling_witness :
    (Except.error "boom" : Except String (List BoundingBox)) =
      Except.error "boom" ∧
    streaming_detect_faces (Except.error "boom") = [] ∧
    run_tick ⟨0, none⟩ 1 (Except.error "boom") 640 119 true =
      Except.error "boom" :=
  ⟨rfl,
    (detector_failure_handling _ "boom" rfl ⟨0, none⟩ 1 640 119 true).1,
    (detector_failure_handling _ "boom" rfl ⟨0, none⟩ 1 640 119 true).2⟩

/-- C10: in the keyboard-only script `MQTT.py`, every recognized command key
publishes its command unconditionally — the loop keeps no last-command
state, applies no rate limit and no de-duplication — so pressing the same
key `n` times publishes `n` identical commands. -/
theorem script_run_replicate (key : Char) (cmd : String) (n : ℕ)
    (h : script_key_to_cmd key = some cmd) :
    script_run (List.replicate n key) = List.replicate n cmd := by
  have hq : key.toLower.toNat ≠ 113 := by
    intro hqq
    unfold script_key_to_cmd at h
    rw [hqq] at h
    simp at h
  induction n with
  | zero => rfl
  | succ n ih =>
    rw [List.replicate_succ, List.replicate_succ]
    unfold script_run
    rw [if_neg hq, h]
    dsimp only
    rw [ih]

/-- Witness for C10: three presses of `w` publish `"Forward"` three
times. -/
theorem script_run_replicate_witness :
    script_key_to_cmd 'w' = some "Forward" ∧
    script_run (List.replicate 3 'w') = List.replicate 3 "Forward" :=
  ⟨by decide, script_run_replicate 'w' "Forward" 3 (by decide)⟩

end FaceGuidance
